import Mathlib

/-
Verification development for the sudo-benchmarks load-testing harness.

The Rust source is shallowly embedded as follows:
- `std::time::Duration` is modelled as a natural number of nanoseconds
  (`Duration`); `Duration::as_secs_f64` is modelled by exact rational
  arithmetic (`Duration.asSecs`), `Duration::as_millis` by truncating
  natural division (`Duration.asMillis`), and `Duration::saturating_sub`
  by truncated natural subtraction.
- `f64` rates are modelled as exact rationals.
- `u32`/`u64` counters are modelled as naturals (no benchmark run comes
  near the overflow boundary).
- fallible Rust functions returning `anyhow::Result` are modelled with
  `Except String`.

Each definition mirrors one item of the source (file and function named in
its doc comment).
-/

namespace SudoBench

/-- Model of `std::time::Duration`: a count of nanoseconds. -/
abbrev Duration := Nat

/-- Model of `Duration::as_secs_f64`, with exact rational arithmetic in
place of `f64`. -/
def Duration.asSecs (d : Duration) : ℚ := (d : ℚ) / 1000000000

/-- Model of `Duration::as_millis` (truncating division). -/
def Duration.asMillis (d : Duration) : ℕ := d / 1000000

/-- Model of `metrics.rs` `LatencyMetric` (the two `dead_code` size fields
are kept for shape fidelity). -/
structure LatencyMetric where
  total_duration : Duration
  time_to_first_byte : Duration
  request_size : ℕ
  response_size : ℕ
  model : String
deriving DecidableEq

/-- Model of `metrics.rs` `StreamingMetric`. -/
structure StreamingMetric where
  total_duration : Duration
  time_to_first_chunk : Option Duration
  chunk_count : ℕ
  total_tokens : ℕ
  model : String
  request_size : ℕ
deriving DecidableEq

/-- Model of `metrics.rs` `ThroughputMetric`. -/
structure ThroughputMetric where
  duration : Duration
  successful_requests : ℕ
  failed_requests : ℕ
  tokens_per_second : ℚ
  requests_per_second : ℚ
  model : String
deriving DecidableEq

/-- Model of `metrics.rs` `LatencyStats`. The `p50/p95/p99` total-latency
fields of the source are computed by the external `hdrhistogram` crate
(`Histogram::value_at_quantile`), an external collaborator that is not part
of this repository, so they are not modelled; all remaining fields are.
Latency statistics are at millisecond granularity exactly as in the source
(`as_millis` conversions). -/
structure LatencyStats where
  model : String
  request_count : ℕ
  min_latency : ℕ
  max_latency : ℕ
  mean_latency : ℕ
  mean_ttfb : ℕ
  p95_ttfb : ℕ
  error_rate : ℚ
deriving DecidableEq

/-- Model of `metrics.rs` `StreamingStats`. Time fields hold nanoseconds
(the source stores `Duration` values built with `Duration::from_nanos`). -/
structure StreamingStats where
  model : String
  request_count : ℕ
  mean_time_to_first_chunk : ℕ
  p95_time_to_first_chunk : ℕ
  mean_tokens_per_second : ℚ
  total_chunks : ℕ
  error_rate : ℚ
deriving DecidableEq

/-- Model of `metrics.rs` `ThroughputStats`. -/
structure ThroughputStats where
  model : String
  test_duration : Duration
  total_requests : ℕ
  successful_requests : ℕ
  failed_requests : ℕ
  mean_requests_per_second : ℚ
  mean_tokens_per_second : ℚ
  success_rate : ℚ
deriving DecidableEq

/-- Sorted insertion used by `sortNat`. -/
def insertNat (x : ℕ) : List ℕ → List ℕ
  | [] => [x]
  | y :: ys => if x ≤ y then x :: y :: ys else y :: insertNat x ys

/-- Model of `Vec::sort` on numeric samples (for a total order on numbers
any correct sort produces the same list, so insertion sort is an exact
model). -/
def sortNat : List ℕ → List ℕ
  | [] => []
  | x :: xs => insertNat x (sortNat xs)

/-- The model filter shared by all three `calculate_*_stats` functions:
`metrics.iter().filter(|m| m.model == model)`. -/
def latencyModelMetrics (metrics : List LatencyMetric) (model : String) :
    List LatencyMetric :=
  metrics.filter (fun m => m.model == model)

/-- See `latencyModelMetrics`. -/
def streamingModelMetrics (metrics : List StreamingMetric) (model : String) :
    List StreamingMetric :=
  metrics.filter (fun m => m.model == model)

/-- See `latencyModelMetrics`. -/
def throughputModelMetrics (metrics : List ThroughputMetric) (model : String) :
    List ThroughputMetric :=
  metrics.filter (fun m => m.model == model)

/-- Model of `metrics.rs` `MetricsCollector::calculate_latency_stats`.
Note: the source sorts `latencies` but does NOT sort `ttfbs`; the p95 TTFB
is read from the unsorted `ttfbs` vector at index
`(len * 95 / 100).min(len - 1)` with default 0. The histogram-based
quantiles are omitted (see `LatencyStats`). -/
def calculate_latency_stats (metrics : List LatencyMetric) (model : String) :
    Option LatencyStats :=
  let model_metrics := latencyModelMetrics metrics model
  if model_metrics.isEmpty then none
  else
    let latencies := sortNat (model_metrics.map (fun m => Duration.asMillis m.total_duration))
    let ttfbs := model_metrics.map (fun m => Duration.asMillis m.time_to_first_byte)
    some {
      model := model
      request_count := model_metrics.length
      min_latency := latencies.head?.getD 0
      max_latency := latencies.getLast?.getD 0
      mean_latency := latencies.sum / latencies.length
      mean_ttfb := ttfbs.sum / ttfbs.length
      p95_ttfb := (ttfbs.get? ((ttfbs.length * 95 / 100).min (ttfbs.length - 1))).getD 0
      error_rate := 0 }

/-- Duration-weighted mean tokens-per-second of `calculate_streaming_stats`
(`metrics.rs` lines 188-194): summed tokens over summed duration, 0 when
the summed duration is 0. -/
def streamingMeanTps (mm : List StreamingMetric) : ℚ :=
  let total_tokens : ℕ := (mm.map (fun m => m.total_tokens)).sum
  let total_duration : Duration := (mm.map (fun m => m.total_duration)).sum
  if 0 < Duration.asSecs total_duration then
    (total_tokens : ℚ) / Duration.asSecs total_duration
  else 0

/-- Model of `metrics.rs` `MetricsCollector::calculate_streaming_stats`.
`ttfcs` collects only the `Some` time-to-first-chunk values and is sorted;
the mean divides summed nanoseconds by the count (integer division, as
`Duration::from_nanos(sum / len)` does). -/
def calculate_streaming_stats (metrics : List StreamingMetric) (model : String) :
    Option StreamingStats :=
  let model_metrics := streamingModelMetrics metrics model
  if model_metrics.isEmpty then none
  else
    let ttfcs := sortNat (model_metrics.filterMap (fun m => m.time_to_first_chunk))
    some {
      model := model
      request_count := model_metrics.length
      mean_time_to_first_chunk := if ttfcs.isEmpty then 0 else ttfcs.sum / ttfcs.length
      p95_time_to_first_chunk := (ttfcs.get? (ttfcs.length * 95 / 100)).getD 0
      mean_tokens_per_second := streamingMeanTps model_metrics
      total_chunks := (model_metrics.map (fun m => m.chunk_count)).sum
      error_rate := 0 }

/-- Mean-of-means rates of `calculate_throughput_stats` (`metrics.rs`
lines 223-224): the arithmetic mean of the per-sample rates. -/
def throughputMeanRate (rates : List ℚ) : ℚ :=
  rates.sum / (rates.length : ℚ)

/-- The summed success-rate computation of `calculate_throughput_stats`
(`metrics.rs` lines 234-238). -/
def throughputSuccessRate (successful total : ℕ) : ℚ :=
  if 0 < total then (successful : ℚ) / (total : ℚ) * 100 else 0

/-- Model of `metrics.rs` `MetricsCollector::calculate_throughput_stats`. -/
def calculate_throughput_stats (metrics : List ThroughputMetric) (model : String) :
    Option ThroughputStats :=
  let model_metrics := throughputModelMetrics metrics model
  if model_metrics.isEmpty then none
  else
    let total_requests : ℕ :=
      (model_metrics.map (fun m => m.successful_requests + m.failed_requests)).sum
    let successful_requests : ℕ := (model_metrics.map (fun m => m.successful_requests)).sum
    some {
      model := model
      test_duration := (model_metrics.map (fun m => m.duration)).sum
      total_requests := total_requests
      successful_requests := successful_requests
      failed_requests := (model_metrics.map (fun m => m.failed_requests)).sum
      mean_requests_per_second :=
        throughputMeanRate (model_metrics.map (fun m => m.requests_per_second))
      mean_tokens_per_second :=
        throughputMeanRate (model_metrics.map (fun m => m.tokens_per_second))
      success_rate := throughputSuccessRate successful_requests total_requests }

/-- Model of `models.rs` `ChatMessage`. -/
structure ChatMessage where
  role : String
  content : String
deriving DecidableEq

/-- Model of `models.rs` `StreamOptions`. -/
structure StreamOptions where
  include_usage : Bool
deriving DecidableEq

/-- Model of `models.rs` `ChatCompletionRequest` (the output shape built by
the request factory). -/
structure ChatCompletionRequest where
  messages : List ChatMessage
  model : String
  max_completion_tokens : Option ℕ
  stream : Option Bool
  stream_options : Option StreamOptions
deriving DecidableEq

/-- Model of `ChatCompletionRequest::simple_text_request`. -/
def simple_text_request (model message : String) (streaming : Bool) :
    ChatCompletionRequest :=
  { messages := [{ role := ("user"), content := message }]
    model := model
    max_completion_tokens := some 150
    stream := if streaming then some true else none
    stream_options := none }

/-- Model of `ChatCompletionRequest::benchmark_request`. -/
def benchmark_request (model : String) (streaming : Bool) : ChatCompletionRequest :=
  simple_text_request model
    ("Write a short paragraph about the benefits of API performance benchmarking.")
    streaming

/-- Model of `ChatCompletionRequest::benchmark_latency_request` (small
output-token cap of 8). -/
def benchmark_latency_request (model : String) (streaming : Bool) :
    ChatCompletionRequest :=
  { benchmark_request model streaming with max_completion_tokens := some 8 }

/-- Model of `ChatCompletionRequest::benchmark_throughput_request` (large
output-token cap of 512). -/
def benchmark_throughput_request (model : String) (streaming : Bool) :
    ChatCompletionRequest :=
  { benchmark_request model streaming with max_completion_tokens := some 512 }

/-- The observable content of the data field of one server-sent event, as
`create_streaming_chat_completion` inspects it: the literal `[DONE]`
sentinel, a JSON payload (from which the consumer reads the delta content
string of every choice, and an optional `usage.completion_tokens` count),
or data that fails to parse as JSON. -/
inductive EventData where
  | done : EventData
  | payload (contents : List String) (usage : Option ℕ) : EventData
  | unparsed : EventData
deriving DecidableEq

/-- One server-sent event together with its arrival time (nanoseconds since
the request was dispatched; models the `Instant::now()` reads inside the
consumer loop). -/
structure StreamEvent where
  data : EventData
  arrival : ℕ
deriving DecidableEq

/-- One item produced by the event stream: a well-formed event, or a
transport-level stream error observed at the given time. -/
inductive StreamStep where
  | ok (e : StreamEvent) : StreamStep
  | err (t : ℕ) (msg : String) : StreamStep
deriving DecidableEq

/-- The mutable loop state of `create_streaming_chat_completion`
(`metric.time_to_first_chunk`, `metric.chunk_count`, `metric.total_tokens`,
and the local `usage_completion_tokens`). The `first_chunk_received` flag
of the source is equivalent to `time_to_first_chunk.isNone` being false,
since the source sets both together. -/
structure ConsumerState where
  time_to_first_chunk : Option ℕ
  chunk_count : ℕ
  total_tokens : ℕ
  usage_completion_tokens : Option ℕ
deriving DecidableEq

/-- Initial consumer state (the metric initialiser at `client.rs` 136-150). -/
def ConsumerState.init : ConsumerState :=
  { time_to_first_chunk := none, chunk_count := 0, total_tokens := 0,
    usage_completion_tokens := none }

/-- The token estimate of `client.rs` line 178:
`(content.len() as f32 / 4.0).ceil() as u32`. For any realistic content
length the `f32` quotient and ceiling are exact, so this is ceiling
division of the UTF-8 byte length by 4. -/
def tokenEstimate (content : String) : ℕ :=
  (content.utf8ByteSize + 3) / 4

/-- The event-draining loop of `create_streaming_chat_completion`
(`client.rs` 152-198) followed by the `total_duration` read at line 200:
returns the final consumer state and the time at which the loop ended (the
arrival time of the terminating event or error, or `closeTime` when the
stream was exhausted). On a stream error the loop logs and `break`s,
leaving the state as already accumulated. -/
def processStream : List StreamStep → ℕ → ConsumerState → ConsumerState × ℕ
  | [], closeTime, st => (st, closeTime)
  | .err t _ :: _, _, st => (st, t)
  | .ok e :: rest, closeTime, st =>
    let st1 : ConsumerState :=
      { st with
        time_to_first_chunk :=
          if st.time_to_first_chunk.isNone then some e.arrival
          else st.time_to_first_chunk
        chunk_count := st.chunk_count + 1 }
    match e.data with
    | .done => (st1, e.arrival)
    | .payload contents usage =>
      processStream rest closeTime
        { st1 with
          total_tokens := st1.total_tokens + (contents.map tokenEstimate).sum
          usage_completion_tokens :=
            match usage with
            | some ct => some ct
            | none => st1.usage_completion_tokens }
    | .unparsed => processStream rest closeTime st1

/-- Model of `client.rs` `SudoClient::create_streaming_chat_completion`.
The transport outcome is supplied as inputs: `statusOk` is whether the
response HTTP status was a success, `items` the sequence the event stream
yields, `closeTime` the time at which the stream would close if fully
drained, and `reqSize` the serialized request size. After the loop, a
server-supplied exact usage count overrides the heuristic token estimate,
and a call in which no event was ever received is an error. -/
def create_streaming_chat_completion (statusOk : Bool) (items : List StreamStep)
    (closeTime : ℕ) (model : String) (reqSize : ℕ) :
    Except String StreamingMetric :=
  if !statusOk then .error ("Streaming chat completion failed")
  else
    let r := processStream items closeTime ConsumerState.init
    let st := r.1
    let total_tokens :=
      match st.usage_completion_tokens with
      | some ct => ct
      | none => st.total_tokens
    if st.time_to_first_chunk.isNone then
      .error ("No streaming chunks received for model " ++ model)
    else
      .ok { total_duration := r.2
            time_to_first_chunk := st.time_to_first_chunk
            chunk_count := st.chunk_count
            total_tokens := total_tokens
            model := model
            request_size := reqSize }

/-- The transport-side outcome of one streaming call: everything
`create_streaming_chat_completion` observes. -/
structure StreamCall where
  statusOk : Bool
  items : List StreamStep
  closeTime : ℕ
  reqSize : ℕ
deriving DecidableEq

/-- Model of `client.rs` `SudoClient::single_request_streaming_throughput_test`
run against the transport outcome `c` for a request on `model`. The source
always returns `Ok`, so the model returns the metric directly: a failed
streaming call becomes a metric with one failed request, zero duration and
zero rates. On success, tokens-per-second is measured over the span from
first chunk to stream end (`total_duration.saturating_sub(ttfc)`), while
requests-per-second is based on the end-to-end duration. -/
def single_request_streaming_throughput_test (c : StreamCall) (model : String) :
    ThroughputMetric :=
  match create_streaming_chat_completion c.statusOk c.items c.closeTime model c.reqSize with
  | .ok streaming_metric =>
    let generation_duration :=
      match streaming_metric.time_to_first_chunk with
      | some ttfc => streaming_metric.total_duration - ttfc
      | none => streaming_metric.total_duration
    { duration := generation_duration
      successful_requests := 1
      failed_requests := 0
      tokens_per_second :=
        if 0 < Duration.asSecs generation_duration then
          (streaming_metric.total_tokens : ℚ) / Duration.asSecs generation_duration
        else 0
      requests_per_second :=
        if 0 < Duration.asSecs streaming_metric.total_duration then
          1 / Duration.asSecs streaming_metric.total_duration
        else 0
      model := model }
  | .error _ =>
    { duration := 0
      successful_requests := 0
      failed_requests := 1
      tokens_per_second := 0
      requests_per_second := 0
      model := model }

/-- Model of `benchmarks.rs` `BenchmarkConfig`. -/
structure BenchmarkConfig where
  requests : Option ℕ
  concurrency : ℕ
  model : List String
  streaming : Bool
deriving DecidableEq

/-- Model of `BenchmarkConfig::latency`. -/
def BenchmarkConfig.latency (requests concurrency : ℕ) (model : List String)
    (streaming : Bool) : BenchmarkConfig :=
  { requests := some requests, concurrency := concurrency, model := model,
    streaming := streaming }

/-- Model of `BenchmarkConfig::throughput` (each worker makes one request,
so `requests := concurrency`, and streaming is forced on). -/
def BenchmarkConfig.throughput (concurrency : ℕ) (model : List String) :
    BenchmarkConfig :=
  { requests := some concurrency, concurrency := concurrency, model := model,
    streaming := true }

/-- Requests dispatched by `BenchmarkRunner::warm_up_model`: `WARMUPS = 2`
latency requests whose outcome is ignored. -/
def warm_up_model (model : String) (streaming : Bool) : List ChatCompletionRequest :=
  List.replicate 2 (benchmark_latency_request model streaming)

/-- Requests one model contributes to a latency benchmark: the warm-up
calls followed by `config.requests.unwrap_or(50)` latency requests, built
with the configured streaming flag (both `run_regular_latency_test` and
`run_streaming_latency_test` pass the flag matching the branch taken). -/
def latencyModelTrace (model : String) (cfg : BenchmarkConfig) :
    List ChatCompletionRequest :=
  warm_up_model model cfg.streaming ++
    List.replicate (cfg.requests.getD 50) (benchmark_latency_request model cfg.streaming)

/-- Requests one model contributes to a throughput benchmark: the warm-up
calls followed by `concurrency` streaming throughput requests (each worker
of `run_streaming_throughput_test` issues exactly one). -/
def throughputModelTrace (model : String) (cfg : BenchmarkConfig) :
    List ChatCompletionRequest :=
  warm_up_model model cfg.streaming ++
    List.replicate cfg.concurrency (benchmark_throughput_request model true)

/-- Model of `BenchmarkRunner::run_latency_benchmark` at the level of its
observable transport behaviour: the result is the list of models actually
tested (the keys the per-model loop would iterate, replacing the printing
of statistics), paired with the full list of chat-completion requests the
run dispatches to the transport, in order. The validation loop over
`config.model` returns an error on the first unsupported model, before the
per-model loop (and hence before any warm-up) runs; per-request outcomes do
not influence which requests are dispatched, so they are not inputs here. -/
def run_latency_benchmark (supported : List String) (cfg : BenchmarkConfig) :
    Except String (List String) × List ChatCompletionRequest :=
  if cfg.model ≠ [] then
    match cfg.model.find? (fun m => !supported.contains m) with
    | some m => (.error ("Model " ++ m ++ " is not supported"), [])
    | none => (.ok cfg.model, cfg.model.flatMap (fun m => latencyModelTrace m cfg))
  else
    (.ok supported, supported.flatMap (fun m => latencyModelTrace m cfg))

/-- Model of `BenchmarkRunner::run_throughput_benchmark`, in the same style
as `run_latency_benchmark`. When no model is configured the source tests
only a subset: `supported_models.iter().take(5)`. -/
def run_throughput_benchmark (supported : List String) (cfg : BenchmarkConfig) :
    Except String (List String) × List ChatCompletionRequest :=
  if cfg.model ≠ [] then
    match cfg.model.find? (fun m => !supported.contains m) with
    | some m => (.error ("Model " ++ m ++ " is not supported"), [])
    | none => (.ok cfg.model, cfg.model.flatMap (fun m => throughputModelTrace m cfg))
  else
    (.ok (supported.take 5),
      (supported.take 5).flatMap (fun m => throughputModelTrace m cfg))

/-- Outcome of one spawned worker task of `run_streaming_throughput_test`:
either the task ran `single_request_streaming_throughput_test` against some
transport outcome, or the task itself aborted (a `JoinError`, recorded only
in the error log). -/
inductive TaskOutcome where
  | completed (c : StreamCall) : TaskOutcome
  | aborted (msg : String) : TaskOutcome
deriving DecidableEq

/-- The metrics `run_streaming_throughput_test` feeds into its collector:
one `ThroughputMetric` per completed task
(`single_request_streaming_throughput_test` always returns `Ok`, so the
`Ok(Err(_))` arm of the source is unreachable); aborted tasks contribute
only an error-log entry, no metric. -/
def collectThroughputMetrics (model : String) (outcomes : List TaskOutcome) :
    List ThroughputMetric :=
  outcomes.filterMap (fun o =>
    match o with
    | .completed c => some (single_request_streaming_throughput_test c model)
    | .aborted _ => none)

/-- Model of `BenchmarkRunner::run_streaming_throughput_test`: statistics
over the collected per-worker metrics, or the
`No successful streaming throughput tests` error when
`calculate_throughput_stats` returns nothing. -/
def run_streaming_throughput_test (model : String) (outcomes : List TaskOutcome) :
    Except String ThroughputStats :=
  match calculate_throughput_stats (collectThroughputMetrics model outcomes) model with
  | some stats => .ok stats
  | none => .error ("No successful streaming throughput tests for model " ++ model)

/-- Spec-side definition for the claim that p95 TTFB is a sorted-array
percentile ("the element at index floor(0.95*n) of the samples sorted
ascending, clamped to the last valid index"). This follows the words of the
specification and is compared against `calculate_latency_stats`, which
indexes the UNSORTED sample vector. -/
def p95SortedSpec (samples : List ℕ) : ℕ :=
  ((sortNat samples).get? ((samples.length * 95 / 100).min (samples.length - 1))).getD 0

/-- The rational model of `as_secs_f64` is positive exactly when the
nanosecond count is. -/
lemma asSecs_pos (d : Duration) : 0 < Duration.asSecs d ↔ 0 < d := by
  unfold Duration.asSecs
  constructor
  · intro h
    rcases Nat.eq_zero_or_pos d with h0 | h0
    · subst h0; norm_num at h
    · exact h0
  · intro h
    have hd : (0:ℚ) < (d:ℚ) := by exact_mod_cast h
    exact div_pos hd (by norm_num)

/-- Summing a pointwise sum of two natural-valued maps equals the sum of
the two mapped sums. -/
lemma sum_map_add {α : Type} (l : List α) (f g : α → ℕ) :
    (l.map (fun x => f x + g x)).sum = (l.map f).sum + (l.map g).sum := by
  induction l with
  | nil => simp
  | cons a l ih => simp [ih]; omega

/-- Example streaming metrics for the duration-weighted-mean witness:
10 tokens over 1 second and 30 tokens over 3 seconds. -/
def smEx : List StreamingMetric :=
  [{ total_duration := 1000000000, time_to_first_chunk := none, chunk_count := 1,
     total_tokens := 10, model := "m", request_size := 0 },
   { total_duration := 3000000000, time_to_first_chunk := none, chunk_count := 1,
     total_tokens := 30, model := "m", request_size := 0 }]

/-- The statistics `calculate_streaming_stats` produces on `smEx`. -/
def smStatsEx : StreamingStats :=
  { model := "m", request_count := 2, mean_time_to_first_chunk := 0,
    p95_time_to_first_chunk := 0, mean_tokens_per_second := 10,
    total_chunks := 2, error_rate := 0 }

/-- C1: for every model with at least one recorded streaming metric, the
mean tokens-per-second of `calculate_streaming_stats` is the sum of
`total_tokens` over the samples of the model divided by the sum of their
`total_duration` (a duration-weighted mean), and 0 when the summed
duration is 0. -/
theorem streaming_mean_tps_duration_weighted
    (metrics : List StreamingMetric) (model : String) (stats : StreamingStats)
    (h : calculate_streaming_stats metrics model = some stats) :
    stats.mean_tokens_per_second =
      if 0 < ((streamingModelMetrics metrics model).map (fun m => m.total_duration)).sum
      then (((streamingModelMetrics metrics model).map (fun m => m.total_tokens)).sum : ℚ) /
        Duration.asSecs ((streamingModelMetrics metrics model).map (fun m => m.total_duration)).sum
      else 0 := by
  simp only [calculate_streaming_stats] at h
  split at h
  · exact absurd h (by simp)
  · rw [Option.some.injEq] at h
    subst h
    simp only [streamingMeanTps, asSecs_pos]
    push_cast
    rw [List.map_map]
    rfl

/-- Witness for C1 at the concrete samples of the claim: tokens 10 over
1 s and tokens 30 over 3 s give a mean of 40/4 = 10, not (10+10)/2. -/
theorem streaming_mean_tps_duration_weighted_witness :
    calculate_streaming_stats smEx ("m") = some smStatsEx ∧
    smStatsEx.mean_tokens_per_second = 10 := by
  have hc : calculate_streaming_stats smEx ("m") = some smStatsEx := by
    norm_num [calculate_streaming_stats, streamingModelMetrics, streamingMeanTps,
      smEx, smStatsEx, sortNat, insertNat, Duration.asSecs]
  refine ⟨hc, ?_⟩
  have h := streaming_mean_tps_duration_weighted smEx ("m") smStatsEx hc
  rw [h]
  norm_num [streamingModelMetrics, smEx, Duration.asSecs]

/-- Example throughput metrics for the mean-of-means witness: individual
token rates 5 and 15. -/
def tpEx : List ThroughputMetric :=
  [{ duration := 0, successful_requests := 1, failed_requests := 0,
     tokens_per_second := 5, requests_per_second := 1, model := "m" },
   { duration := 0, successful_requests := 1, failed_requests := 0,
     tokens_per_second := 15, requests_per_second := 1, model := "m" }]

/-- The statistics `calculate_throughput_stats` produces on `tpEx`. -/
def tpStatsEx : ThroughputStats :=
  { model := "m", test_duration := 0, total_requests := 2, successful_requests := 2,
    failed_requests := 0, mean_requests_per_second := 1, mean_tokens_per_second := 10,
    success_rate := 100 }

/-- C2: for every model with at least one recorded throughput metric,
`calculate_throughput_stats` computes `mean_tokens_per_second` and
`mean_requests_per_second` as the simple arithmetic mean of the per-sample rate
fields themselves (a mean-of-means). -/
theorem throughput_mean_rates_are_mean_of_means
    (metrics : List ThroughputMetric) (model : String) (stats : ThroughputStats)
    (h : calculate_throughput_stats metrics model = some stats) :
    stats.mean_tokens_per_second =
      ((throughputModelMetrics metrics model).map (fun m => m.tokens_per_second)).sum /
        ((throughputModelMetrics metrics model).length : ℚ) ∧
    stats.mean_requests_per_second =
      ((throughputModelMetrics metrics model).map (fun m => m.requests_per_second)).sum /
        ((throughputModelMetrics metrics model).length : ℚ) := by
  simp only [calculate_throughput_stats] at h
  split at h
  · exact absurd h (by simp)
  · rw [Option.some.injEq] at h
    subst h
    constructor <;> simp [throughputMeanRate]

/-- Witness for C2 at the concrete samples of the claim: individual rates
5 and 15 give a mean of 10. -/
theorem throughput_mean_rates_are_mean_of_means_witness :
    calculate_throughput_stats tpEx ("m") = some tpStatsEx ∧
    tpStatsEx.mean_tokens_per_second = 10 := by
  have hc : calculate_throughput_stats tpEx ("m") = some tpStatsEx := by
    norm_num [calculate_throughput_stats, throughputModelMetrics, throughputMeanRate,
      throughputSuccessRate, tpEx, tpStatsEx]
  refine ⟨hc, ?_⟩
  have h := throughput_mean_rates_are_mean_of_means tpEx ("m") tpStatsEx hc
  rw [h.1]
  norm_num [throughputModelMetrics, tpEx]

/-- Arithmetic facts about the summed success rate: with `s` summed
successes and `f` summed failures the rate lies in [0,100], is 0 exactly
when `s = 0`, and is 100 exactly when `f = 0` and at least one request
succeeded. -/
lemma throughputSuccessRate_props (s f : ℕ) :
    0 ≤ throughputSuccessRate s (s + f) ∧
    throughputSuccessRate s (s + f) ≤ 100 ∧
    (throughputSuccessRate s (s + f) = 0 ↔ s = 0) ∧
    (throughputSuccessRate s (s + f) = 100 ↔ f = 0 ∧ 0 < s) := by
  unfold throughputSuccessRate
  rcases Nat.eq_zero_or_pos (s + f) with h0 | hpos
  · have hs : s = 0 := by omega
    have hf : f = 0 := by omega
    subst hs; subst hf
    norm_num
  · rw [if_pos hpos]
    have hT : (0:ℚ) < ((s + f : ℕ) : ℚ) := by exact_mod_cast hpos
    have hs_le : (s:ℚ) ≤ ((s + f : ℕ) : ℚ) := by exact_mod_cast Nat.le_add_right s f
    refine ⟨by positivity, ?_, ?_, ?_⟩
    · have h1 : (s:ℚ) / ((s + f : ℕ) : ℚ) ≤ 1 := (div_le_one hT).mpr hs_le
      nlinarith
    · rw [mul_eq_zero]
      constructor
      · rintro (hd | h100)
        · rw [div_eq_zero_iff] at hd
          rcases hd with hnum | hden
          · exact_mod_cast hnum
          · exact absurd hden (ne_of_gt hT)
        · norm_num at h100
      · intro hs0; subst hs0; left; simp
    · rw [div_mul_eq_mul_div, div_eq_iff (ne_of_gt hT)]
      constructor
      · intro hEq
        have hST : (s:ℚ) = ((s + f : ℕ) : ℚ) := by linarith
        have hnat : s = s + f := by exact_mod_cast hST
        exact ⟨by omega, by omega⟩
      · rintro ⟨hf0, _⟩
        subst hf0
        push_cast
        ring

/-- C5 (amended): for every model with at least one recorded throughput
metric, `success_rate` is `successful / (successful + failed) * 100` over
the summed counts (0 when the summed total is 0); it lies in [0,100],
equals 0 exactly when no request succeeded, and equals 100 exactly when
none failed AND at least one succeeded. (The original claim of "equals 100
exactly when none failed" fails when the summed total is 0.) -/
theorem throughput_success_rate_formula_and_bounds
    (metrics : List ThroughputMetric) (model : String) (stats : ThroughputStats)
    (h : calculate_throughput_stats metrics model = some stats) :
    (stats.success_rate =
      if 0 < ((throughputModelMetrics metrics model).map
                (fun m => m.successful_requests + m.failed_requests)).sum
      then (Nat.cast (((throughputModelMetrics metrics model).map
                (fun m => m.successful_requests)).sum) : ℚ) /
          (Nat.cast (((throughputModelMetrics metrics model).map
                (fun m => m.successful_requests + m.failed_requests)).sum) : ℚ) * 100
      else 0) ∧
    0 ≤ stats.success_rate ∧ stats.success_rate ≤ 100 ∧
    (stats.success_rate = 0 ↔
      ((throughputModelMetrics metrics model).map (fun m => m.successful_requests)).sum = 0) ∧
    (stats.success_rate = 100 ↔
      ((throughputModelMetrics metrics model).map (fun m => m.failed_requests)).sum = 0 ∧
      0 < ((throughputModelMetrics metrics model).map (fun m => m.successful_requests)).sum) := by
  simp only [calculate_throughput_stats] at h
  split at h
  · exact absurd h (by simp)
  · rw [Option.some.injEq] at h
    subst h
    refine ⟨rfl, ?_⟩
    show 0 ≤ throughputSuccessRate _ _ ∧ _
    rw [sum_map_add (throughputModelMetrics metrics model)
      (fun m => m.successful_requests) (fun m => m.failed_requests)]
    exact throughputSuccessRate_props _ _

/-- A throughput metric whose counters are all zero: no request succeeded
and none failed. -/
def tpZero : List ThroughputMetric :=
  [{ duration := 0, successful_requests := 0, failed_requests := 0,
     tokens_per_second := 0, requests_per_second := 0, model := "m" }]

/-- The statistics `calculate_throughput_stats` produces on `tpZero`. -/
def tpZeroStats : ThroughputStats :=
  { model := "m", test_duration := 0, total_requests := 0, successful_requests := 0,
    failed_requests := 0, mean_requests_per_second := 0, mean_tokens_per_second := 0,
    success_rate := 0 }

/-- Counterexample to C5 as stated: on a single metric with zero
successful and zero failed requests, the summed total is 0, so no sample
failed, yet the success rate is 0 rather than 100 — "equals 100 exactly
when none failed" is false. -/
theorem throughput_success_rate_claim_counterexample :
    calculate_throughput_stats tpZero ("m") = some tpZeroStats ∧
    tpZeroStats.failed_requests = 0 ∧
    tpZeroStats.success_rate ≠ 100 := by
  refine ⟨?_, rfl, by norm_num [tpZeroStats]⟩
  norm_num [calculate_throughput_stats, throughputModelMetrics, throughputMeanRate,
    throughputSuccessRate, tpZero, tpZeroStats]

/-- A throughput sample with three successes and one failure. -/
def tpMix : List ThroughputMetric :=
  [{ duration := 0, successful_requests := 3, failed_requests := 1,
     tokens_per_second := 0, requests_per_second := 0, model := "m" }]

/-- The statistics `calculate_throughput_stats` produces on `tpMix`:
success rate 3/4 * 100 = 75. -/
def tpMixStats : ThroughputStats :=
  { model := "m", test_duration := 0, total_requests := 4, successful_requests := 3,
    failed_requests := 1, mean_requests_per_second := 0, mean_tokens_per_second := 0,
    success_rate := 75 }

/-- Witness for the amended C5 on concrete data (3 successes, 1 failure,
rate 75). -/
theorem throughput_success_rate_formula_and_bounds_witness :
    calculate_throughput_stats tpMix ("m") = some tpMixStats ∧
    (0 ≤ tpMixStats.success_rate ∧ tpMixStats.success_rate ≤ 100) ∧
    tpMixStats.success_rate = 75 := by
  have hc : calculate_throughput_stats tpMix ("m") = some tpMixStats := by
    norm_num [calculate_throughput_stats, throughputModelMetrics, throughputMeanRate,
      throughputSuccessRate, tpMix, tpMixStats]
  have h := throughput_success_rate_formula_and_bounds tpMix ("m") tpMixStats hc
  exact ⟨hc, ⟨h.2.1, h.2.2.1⟩, by norm_num [tpMixStats]⟩

/-- Two latency metrics for one model whose TTFB samples arrive in the
order 200 ms, then 100 ms. -/
def latEx : List LatencyMetric :=
  [{ total_duration := 0, time_to_first_byte := 200000000, request_size := 0,
     response_size := 0, model := "m" },
   { total_duration := 0, time_to_first_byte := 100000000, request_size := 0,
     response_size := 0, model := "m" }]

/-- The statistics `calculate_latency_stats` produces on `latEx`. -/
def latExStats : LatencyStats :=
  { model := "m", request_count := 2, min_latency := 0, max_latency := 0,
    mean_latency := 0, mean_ttfb := 150, p95_ttfb := 100, error_rate := 0 }

/-- C6 (code bug): `calculate_latency_stats` reads the p95 TTFB from the
UNSORTED sample vector. On TTFB samples arriving as [200 ms, 100 ms] the
code reports p95 = 100 ms, while the sorted-array percentile the
specification describes is 200 ms (the element at index
`min(floor(0.95*2), 1) = 1` of the ascending sort [100, 200]). -/
theorem latency_p95_ttfb_unsorted_code_bug :
    calculate_latency_stats latEx ("m") = some latExStats ∧
    latExStats.p95_ttfb = 100 ∧
    (latencyModelMetrics latEx ("m")).map
      (fun m => Duration.asMillis m.time_to_first_byte) = [200, 100] ∧
    p95SortedSpec [200, 100] = 200 := by
  refine ⟨?_, rfl, by decide, by decide⟩
  norm_num [calculate_latency_stats, latencyModelMetrics, latEx, latExStats,
    sortNat, insertNat, Duration.asMillis]

/-- C4: a streaming call through which no event was ever received
(`time_to_first_chunk` still unset after the drain loop) returns an error
rather than a `StreamingMetric`, even when the transport reported an HTTP
success status (`statusOk = true` here). -/
theorem streaming_zero_events_is_error
    (items : List StreamStep) (closeTime : ℕ) (model : String) (reqSize : ℕ)
    (h : (processStream items closeTime ConsumerState.init).1.time_to_first_chunk = none) :
    ∃ msg, create_streaming_chat_completion true items closeTime model reqSize =
      Except.error msg := by
  refine ⟨"No streaming chunks received for model " ++ model, ?_⟩
  simp [create_streaming_chat_completion, h]

/-- Witness for C4: the empty stream yields no event, and the call errors
despite the success status. -/
theorem streaming_zero_events_is_error_witness :
    (processStream [] 0 ConsumerState.init).1.time_to_first_chunk = none ∧
    ∃ msg, create_streaming_chat_completion true [] 0 ("m") 0 = Except.error msg :=
  ⟨rfl, streaming_zero_events_is_error [] 0 ("m") 0 rfl⟩

/-- The consumer loop never visits anything after the first stream error:
processing a stream that continues past an error equals processing the
stream truncated at that error. -/
lemma processStream_stops_at_err (pre : List StreamStep) (rest : List StreamStep)
    (t : ℕ) (msg : String) (closeTime : ℕ) (st : ConsumerState) :
    processStream (pre ++ StreamStep.err t msg :: rest) closeTime st =
      processStream (pre ++ [StreamStep.err t msg]) closeTime st := by
  induction pre generalizing st with
  | nil => rfl
  | cons a pre ih =>
    cases a with
    | err t2 msg2 => rfl
    | ok e =>
      cases hd : e.data with
      | done => simp [processStream, hd]
      | payload contents usage => simp [processStream, hd]; exact ih _
      | unparsed => simp [processStream, hd]; exact ih _

/-- Once the first chunk has been seen, later processing never clears
`time_to_first_chunk`. -/
lemma processStream_ttfc_isSome (items : List StreamStep) (closeTime : ℕ)
    (st : ConsumerState) (h : st.time_to_first_chunk.isSome) :
    (processStream items closeTime st).1.time_to_first_chunk.isSome := by
  induction items generalizing st with
  | nil => exact h
  | cons a items ih =>
    have hnn : st.time_to_first_chunk.isNone = false := by
      cases hv : st.time_to_first_chunk with
      | none => rw [hv] at h; exact absurd h (by simp)
      | some t => rfl
    cases a with
    | err t msg => exact h
    | ok e =>
      cases hd : e.data with
      | done => simp [processStream, hd, hnn, h]
      | payload contents usage =>
        simp only [processStream, hd, hnn, Bool.false_eq_true, if_false]
        exact ih _ h
      | unparsed =>
        simp only [processStream, hd, hnn, Bool.false_eq_true, if_false]
        exact ih _ h

/-- A stream whose first item is an event leaves `time_to_first_chunk`
set. -/
lemma processStream_ok_head_ttfc (e : StreamEvent) (rest : List StreamStep)
    (closeTime : ℕ) :
    (processStream (StreamStep.ok e :: rest) closeTime
        ConsumerState.init).1.time_to_first_chunk.isSome := by
  cases hd : e.data with
  | done => simp [processStream, hd, ConsumerState.init]
  | payload contents usage =>
    simp only [processStream, hd, ConsumerState.init]
    exact processStream_ttfc_isSome _ _ _ (by simp)
  | unparsed =>
    simp only [processStream, hd, ConsumerState.init]
    exact processStream_ttfc_isSome _ _ _ (by simp)

/-- With a successful HTTP status, the streaming call succeeds exactly
when the drain loop left a first-chunk time. -/
lemma create_streaming_ok_iff_ttfc_isSome (items : List StreamStep)
    (closeTime : ℕ) (model : String) (reqSize : ℕ) :
    (∃ sm, create_streaming_chat_completion true items closeTime model reqSize =
        Except.ok sm) ↔
      (processStream items closeTime ConsumerState.init).1.time_to_first_chunk.isSome := by
  unfold create_streaming_chat_completion
  cases hop : (processStream items closeTime ConsumerState.init).1.time_to_first_chunk with
  | none => simp [hop]
  | some t => simp [hop]

/-- C3 (amended): on a transport-level stream error the consumer stops
consuming (everything after the first error is ignored), but the error is
surfaced to the caller only when no event preceded it: a streaming call
(with HTTP success) returns `Ok` — keeping the counts accumulated so far —
exactly when the first item of the stream is an event rather than an error. -/
theorem streaming_error_stops_but_counts_kept :
    (∀ (pre rest : List StreamStep) (t : ℕ) (msg : String) (closeTime : ℕ)
       (st : ConsumerState),
       processStream (pre ++ StreamStep.err t msg :: rest) closeTime st =
         processStream (pre ++ [StreamStep.err t msg]) closeTime st) ∧
    (∀ (items : List StreamStep) (closeTime : ℕ) (model : String) (reqSize : ℕ),
       (∃ sm, create_streaming_chat_completion true items closeTime model reqSize =
           Except.ok sm) ↔ ∃ e, items.head? = some (StreamStep.ok e)) := by
  constructor
  · exact fun pre rest t msg closeTime st =>
      processStream_stops_at_err pre rest t msg closeTime st
  · intro items closeTime model reqSize
    rw [create_streaming_ok_iff_ttfc_isSome]
    cases items with
    | nil => simp [processStream, ConsumerState.init]
    | cons a rest =>
      cases a with
      | err t msg => simp [processStream, ConsumerState.init]
      | ok e => simp [processStream_ok_head_ttfc e rest closeTime]

/-- The stream used to refute C3 as stated: one well-formed event carrying
4 bytes of delta content at t = 1 ns, then a transport stream error. -/
def errItems : List StreamStep :=
  [StreamStep.ok { data := EventData.payload [("abcd")] none, arrival := 1 },
   StreamStep.err 2 ("stream error")]

/-- The metric the call returns on `errItems`. -/
def errMetric : StreamingMetric :=
  { total_duration := 2, time_to_first_chunk := some 1, chunk_count := 1,
    total_tokens := 1, model := "m", request_size := 0 }

/-- Counterexample to C3 as stated: after one event is received, a
transport-level stream error does NOT surface to the caller — the call
returns a successful `StreamingMetric` carrying the chunk and token
counts accumulated before the error, instead of discarding them. -/
theorem streaming_error_after_chunk_counterexample :
    create_streaming_chat_completion true errItems 5 ("m") 0 = Except.ok errMetric := by
  rfl

/-- A successful streaming call always carries a first-chunk time (the
call errors out otherwise). -/
lemma create_streaming_ok_ttfc_isSome (statusOk : Bool) (items : List StreamStep)
    (closeTime : ℕ) (model : String) (reqSize : ℕ) (sm : StreamingMetric)
    (h : create_streaming_chat_completion statusOk items closeTime model reqSize =
      Except.ok sm) :
    sm.time_to_first_chunk.isSome := by
  unfold create_streaming_chat_completion at h
  split at h
  · exact absurd h (by simp)
  · dsimp only at h
    split at h
    · exact absurd h (by simp)
    · rename_i hnn
      rw [Except.ok.injEq] at h
      subst h
      cases hv : (processStream items closeTime ConsumerState.init).1.time_to_first_chunk with
      | none => rw [hv] at hnn; exact absurd rfl hnn
      | some t => simp [hv]

/-- C7: for every successful streaming throughput request, the per-request
tokens-per-second is computed over the generation span, i.e. the
end-to-end duration minus the time to first chunk (saturating), with 0
when that span is 0 — while requests-per-second is computed from the
end-to-end duration. -/
theorem streaming_throughput_tps_excludes_ttfc
    (c : StreamCall) (model : String) (sm : StreamingMetric)
    (h : create_streaming_chat_completion c.statusOk c.items c.closeTime model c.reqSize =
      Except.ok sm) :
    ∃ ttfc, sm.time_to_first_chunk = some ttfc ∧
      (single_request_streaming_throughput_test c model).duration =
        sm.total_duration - ttfc ∧
      (single_request_streaming_throughput_test c model).tokens_per_second =
        (if 0 < Duration.asSecs (sm.total_duration - ttfc)
         then (sm.total_tokens : ℚ) / Duration.asSecs (sm.total_duration - ttfc)
         else 0) ∧
      (single_request_streaming_throughput_test c model).requests_per_second =
        (if 0 < Duration.asSecs sm.total_duration
         then 1 / Duration.asSecs sm.total_duration
         else 0) := by
  obtain ⟨ttfc, httfc⟩ := Option.isSome_iff_exists.mp
    (create_streaming_ok_ttfc_isSome c.statusOk c.items c.closeTime model c.reqSize sm h)
  refine ⟨ttfc, httfc, ?_, ?_, ?_⟩ <;>
    simp [single_request_streaming_throughput_test, h, httfc]

/-- The transport outcome used as the C7 witness: a first chunk with 8
bytes of content at 1 s, stream done at 3 s. -/
def c7Call : StreamCall :=
  { statusOk := true
    items := [StreamStep.ok { data := EventData.payload [("aaaaaaaa")] none,
                              arrival := 1000000000 },
              StreamStep.ok { data := EventData.done, arrival := 3000000000 }]
    closeTime := 0
    reqSize := 0 }

/-- The streaming metric of `c7Call`: 2 estimated tokens over 3 s end to
end, first chunk at 1 s. -/
def c7Metric : StreamingMetric :=
  { total_duration := 3000000000, time_to_first_chunk := some 1000000000,
    chunk_count := 2, total_tokens := 2, model := "m", request_size := 0 }

/-- Witness for C7: on `c7Call` the streaming call succeeds with
`c7Metric`, and the derived throughput metric divides the 2 tokens by the
2-second generation span (not the 3-second total). -/
theorem streaming_throughput_tps_excludes_ttfc_witness :
    ∃ ttfc, c7Metric.time_to_first_chunk = some ttfc ∧
      (single_request_streaming_throughput_test c7Call ("m")).duration =
        c7Metric.total_duration - ttfc ∧
      (single_request_streaming_throughput_test c7Call ("m")).tokens_per_second =
        (if 0 < Duration.asSecs (c7Metric.total_duration - ttfc)
         then (c7Metric.total_tokens : ℚ) / Duration.asSecs (c7Metric.total_duration - ttfc)
         else 0) ∧
      (single_request_streaming_throughput_test c7Call ("m")).requests_per_second =
        (if 0 < Duration.asSecs c7Metric.total_duration
         then 1 / Duration.asSecs c7Metric.total_duration
         else 0) :=
  streaming_throughput_tps_excludes_ttfc c7Call ("m") c7Metric (by rfl)

/-- C8: when the config names a model that is not in the previously
fetched supported-model list, both benchmark entry points return an error
(the unsupported-model validation failure) and dispatch no
chat-completion request at all — the transport trace is empty, so in
particular no warm-up call is issued. -/
theorem unsupported_model_errors_before_dispatch
    (supported : List String) (cfg : BenchmarkConfig) (m : String)
    (hm : m ∈ cfg.model) (hns : m ∉ supported) :
    (∃ e, (run_latency_benchmark supported cfg).1 = Except.error e) ∧
    (run_latency_benchmark supported cfg).2 = [] ∧
    (∃ e, (run_throughput_benchmark supported cfg).1 = Except.error e) ∧
    (run_throughput_benchmark supported cfg).2 = [] := by
  have hne : cfg.model ≠ [] := by
    intro hnil
    rw [hnil] at hm
    exact (List.not_mem_nil m) hm
  have hfind : (cfg.model.find? (fun x => !supported.contains x)).isSome := by
    rw [List.find?_isSome]
    refine ⟨m, hm, ?_⟩
    simp only [Bool.not_eq_true']
    rw [← Bool.not_eq_true]
    intro hc
    exact hns (List.contains_iff_exists_mem_beq.mp hc |>.elim
      (fun x hx => by rw [eq_of_beq hx.2]; exact hx.1))
  obtain ⟨m2, hm2⟩ := Option.isSome_iff_exists.mp hfind
  unfold run_latency_benchmark run_throughput_benchmark
  rw [if_pos hne, if_pos hne, hm2]
  exact ⟨⟨_, rfl⟩, rfl, ⟨_, rfl⟩, rfl⟩

/-- Witness for C8: one supported model, a config requesting a different
model. -/
theorem unsupported_model_errors_before_dispatch_witness :
    (∃ e, (run_latency_benchmark ["a"] (BenchmarkConfig.latency 1 1 ["b"] false)).1 =
      Except.error e) ∧
    (run_latency_benchmark ["a"] (BenchmarkConfig.latency 1 1 ["b"] false)).2 = [] ∧
    (∃ e, (run_throughput_benchmark ["a"] (BenchmarkConfig.latency 1 1 ["b"] false)).1 =
      Except.error e) ∧
    (run_throughput_benchmark ["a"] (BenchmarkConfig.latency 1 1 ["b"] false)).2 = [] :=
  unsupported_model_errors_before_dispatch ["a"] (BenchmarkConfig.latency 1 1 ["b"] false)
    ("b") (by decide) (by decide)

/-- C9 (amended): with no model configured, the latency benchmark tests
exactly the full supported-model list, but the throughput benchmark tests
only the first five supported models (`take 5`) — which equals the full
list exactly when at most five models are supported. -/
theorem default_model_selection
    (supported : List String) (cfg : BenchmarkConfig) (h : cfg.model = []) :
    (run_latency_benchmark supported cfg).1 = Except.ok supported ∧
    (run_throughput_benchmark supported cfg).1 = Except.ok (supported.take 5) ∧
    (supported.length ≤ 5 →
      (run_throughput_benchmark supported cfg).1 = Except.ok supported) := by
  unfold run_latency_benchmark run_throughput_benchmark
  rw [if_neg (by simp [h]), if_neg (by simp [h])]
  refine ⟨rfl, rfl, fun hl => ?_⟩
  simp [List.take_of_length_le hl]

/-- Witness for the amended C9 on six supported models and an empty model
list. -/
theorem default_model_selection_witness :
    (run_latency_benchmark ["m1", "m2", "m3", "m4", "m5", "m6"]
        (BenchmarkConfig.latency 1 1 [] false)).1 =
      Except.ok (["m1", "m2", "m3", "m4", "m5", "m6"]) ∧
    (run_throughput_benchmark ["m1", "m2", "m3", "m4", "m5", "m6"]
        (BenchmarkConfig.latency 1 1 [] false)).1 =
      Except.ok ((["m1", "m2", "m3", "m4", "m5", "m6"] : List String).take 5) ∧
    ((["m1", "m2", "m3", "m4", "m5", "m6"] : List String).length ≤ 5 →
      (run_throughput_benchmark ["m1", "m2", "m3", "m4", "m5", "m6"]
          (BenchmarkConfig.latency 1 1 [] false)).1 =
        Except.ok (["m1", "m2", "m3", "m4", "m5", "m6"])) :=
  default_model_selection ["m1", "m2", "m3", "m4", "m5", "m6"]
    (BenchmarkConfig.latency 1 1 [] false) rfl

/-- Counterexample to C9 as stated: with six supported models and an empty
model list, the throughput benchmark tests only the first five — not the
full supported list. -/
theorem throughput_default_subset_counterexample :
    (run_throughput_benchmark ["m1", "m2", "m3", "m4", "m5", "m6"]
        (BenchmarkConfig.throughput 2 [])).1 =
      Except.ok (["m1", "m2", "m3", "m4", "m5"]) ∧
    (["m1", "m2", "m3", "m4", "m5"] : List String) ≠
      ["m1", "m2", "m3", "m4", "m5", "m6"] := by
  exact ⟨rfl, by decide⟩

/-- The throughput metric produced for a failed streaming request: one
failed request, zero duration and zero rates. -/
def failedStreamingMetric (model : String) : ThroughputMetric :=
  { duration := 0, successful_requests := 0, failed_requests := 1,
    tokens_per_second := 0, requests_per_second := 0, model := model }

/-- Every metric the streaming throughput worker produces carries the
requested model name, success or failure. -/
lemma single_request_model (c : StreamCall) (model : String) :
    (single_request_streaming_throughput_test c model).model = model := by
  unfold single_request_streaming_throughput_test
  split <;> rfl

/-- A worker whose streaming call fails produces exactly
`failedStreamingMetric`. -/
lemma single_request_failed (c : StreamCall) (model : String) (e : String)
    (h : create_streaming_chat_completion c.statusOk c.items c.closeTime model c.reqSize =
      Except.error e) :
    single_request_streaming_throughput_test c model = failedStreamingMetric model := by
  unfold single_request_streaming_throughput_test
  rw [h]
  rfl

/-- When every worker completed with a failing streaming call, the
collected metric list is the failure metric repeated once per worker. -/
lemma collect_all_failed (model : String) (outcomes : List TaskOutcome)
    (hall : ∀ o ∈ outcomes, ∃ c e, o = TaskOutcome.completed c ∧
        create_streaming_chat_completion c.statusOk c.items c.closeTime model c.reqSize =
          Except.error e) :
    collectThroughputMetrics model outcomes =
      List.replicate outcomes.length (failedStreamingMetric model) := by
  induction outcomes with
  | nil => rfl
  | cons o rest ih =>
    obtain ⟨c, e, rfl, hce⟩ := hall o (List.mem_cons_self o rest)
    simp only [collectThroughputMetrics, List.filterMap_cons, List.length_cons,
      List.replicate_succ]
    rw [single_request_failed c model e hce]
    have := ih (fun o2 ho2 => hall o2 (List.mem_cons_of_mem _ ho2))
    simp only [collectThroughputMetrics] at this
    rw [this]

/-- Statistics over `n ≥ 1` copies of the failure metric: all-zero rates,
`n` failed requests, success rate 0. -/
lemma calculate_throughput_stats_all_failed (model : String) (n : ℕ) (hn : 0 < n) :
    calculate_throughput_stats (List.replicate n (failedStreamingMetric model)) model =
      some { model := model, test_duration := 0, total_requests := n,
             successful_requests := 0, failed_requests := n,
             mean_requests_per_second := 0, mean_tokens_per_second := 0,
             success_rate := 0 } := by
  have hfil : throughputModelMetrics (List.replicate n (failedStreamingMetric model)) model =
      List.replicate n (failedStreamingMetric model) := by
    unfold throughputModelMetrics
    exact List.filter_eq_self.mpr (fun a ha => by
      rw [(List.mem_replicate.mp ha).2]
      exact beq_self_eq_true ((failedStreamingMetric model).model))
  obtain ⟨k, rfl⟩ : ∃ k, n = k + 1 := ⟨n - 1, by omega⟩
  unfold calculate_throughput_stats
  rw [hfil]
  simp [failedStreamingMetric, throughputMeanRate, throughputSuccessRate,
    List.sum_replicate, List.replicate_succ]
  omega

/-- C10: when the streaming request of every worker fails at the transport
level but no task aborts, each failure still yields a metric, so
`run_streaming_throughput_test` returns statistics — success rate 0, one
failed request per worker, zero duration and zero rates — and the
`No successful streaming throughput tests` error can only be reached when
no metric at all was collected. -/
theorem all_failed_workers_still_yield_stats
    (model : String) (outcomes : List TaskOutcome)
    (hne : outcomes ≠ [])
    (hall : ∀ o ∈ outcomes, ∃ c e, o = TaskOutcome.completed c ∧
        create_streaming_chat_completion c.statusOk c.items c.closeTime model c.reqSize =
          Except.error e) :
    (run_streaming_throughput_test model outcomes =
      Except.ok { model := model, test_duration := 0,
                  total_requests := outcomes.length,
                  successful_requests := 0, failed_requests := outcomes.length,
                  mean_requests_per_second := 0, mean_tokens_per_second := 0,
                  success_rate := 0 }) ∧
    (∀ outs : List TaskOutcome,
      (∃ e, run_streaming_throughput_test model outs = Except.error e) →
      collectThroughputMetrics model outs = []) := by
  constructor
  · have hlen : 0 < outcomes.length := List.length_pos.mpr hne
    unfold run_streaming_throughput_test
    rw [collect_all_failed model outcomes hall,
      calculate_throughput_stats_all_failed model outcomes.length hlen]
  · intro outs he
    obtain ⟨e, he⟩ := he
    unfold run_streaming_throughput_test at he
    cases hcalc : calculate_throughput_stats (collectThroughputMetrics model outs) model with
    | some s => rw [hcalc] at he; exact absurd he (by simp)
    | none =>
      simp only [calculate_throughput_stats] at hcalc
      split at hcalc
      · rename_i hemp
        have hself : throughputModelMetrics (collectThroughputMetrics model outs) model =
            collectThroughputMetrics model outs := by
          unfold throughputModelMetrics
          refine List.filter_eq_self.mpr (fun a ha => ?_)
          unfold collectThroughputMetrics at ha
          rw [List.mem_filterMap] at ha
          obtain ⟨o, ho, hsome⟩ := ha
          cases o with
          | completed c =>
            simp only [collectThroughputMetrics, Option.some.injEq] at hsome
            rw [← hsome, single_request_model]
            exact beq_self_eq_true model
          | aborted msg => exact absurd hsome (by simp)
        rw [hself] at hemp
        exact List.isEmpty_iff.mp hemp
      · exact absurd hcalc (by simp)

/-- A transport outcome whose HTTP status already fails, so the streaming
call errors before any event. -/
def c10Call : StreamCall :=
  { statusOk := false, items := [], closeTime := 0, reqSize := 0 }

/-- Witness for C10: a single worker whose streaming call fails still
produces full statistics with success rate 0 and one failed request. -/
theorem all_failed_workers_still_yield_stats_witness :
    (run_streaming_throughput_test ("m") [TaskOutcome.completed c10Call] =
      Except.ok { model := "m", test_duration := 0, total_requests := 1,
                  successful_requests := 0, failed_requests := 1,
                  mean_requests_per_second := 0, mean_tokens_per_second := 0,
                  success_rate := 0 }) ∧
    (∀ outs : List TaskOutcome,
      (∃ e, run_streaming_throughput_test ("m") outs = Except.error e) →
      collectThroughputMetrics ("m") outs = []) := by
  have h := all_failed_workers_still_yield_stats ("m") [TaskOutcome.completed c10Call]
    (by simp)
    (by
      intro o ho
      simp only [List.mem_singleton] at ho
      subst ho
      exact ⟨c10Call, "Streaming chat completion failed", rfl, rfl⟩)
  simpa using h

end SudoBench
